import Mathlib

/-!
Shallow embedding of `ollama.py`, a single-class HTTP API client for a local
model server.  Each Python method builds a JSON payload, performs one HTTP
call through the `requests` library, and returns a status/response pair (or,
for the streaming endpoints, iterates over response lines).

The embedding models:
  * JSON/Python payload values (`PyVal`), payloads as ordered association
    lists (Python dicts preserve insertion order);
  * the HTTP transport as a function from a `Request` to either a `Response`
    or a raised transport exception (`Except PyExn Response`);
  * each client method as a function from the client state, the transport and
    the arguments to an `OpOutcome`: the client state after the call, the
    list of requests issued during the call, and a result that is either a
    value or a raised Python exception.

`pull_model` and `push_model` contain `yield` in their Python bodies, so a
call to them returns a generator object no matter what `stream` is; the model
records what a caller observes by exhausting that generator (see
`PullResult`).
-/

namespace OllamaPy

/-- Values that can appear in a JSON request payload: Python `None`, bools,
ints, floats (kept as exact rationals; no arithmetic is ever done on them),
strings, lists and dicts (ordered association lists). -/
inductive PyVal where
  | none
  | bool (b : Bool)
  | int (n : Int)
  | float (q : ℚ)
  | str (s : String)
  | list (xs : List PyVal)
  | dict (d : List (String × PyVal))

/-- A JSON payload: an ordered mapping from field name to value, as built by
the Python dict literals in each method. -/
abbrev Payload := List (String × PyVal)

/-- The Python exceptions that appear in this client: the `FileNotFoundError`
raised by `create_blob`, and arbitrary exceptions raised by the `requests`
transport (connection errors and the like). -/
inductive PyExn where
  | fileNotFound (msg : String)
  | transport (msg : String)

/-- HTTP method of a request. -/
inductive Method where
  | POST
  | GET
  | DELETE
  | HEAD

/-- Body of a request: no body (GET/HEAD), a JSON body (`json=data`), or a
multipart file upload (`files` with the opened file at `file_path`). -/
inductive Body where
  | empty
  | json (data : Payload)
  | multipart (file_path : String)

/-- One HTTP request as handed to the `requests` library: method, the URL
string passed to `requests.<method>`, the body, and the `stream=` keyword
passed to the transport (only `pull_model`/`push_model` thread it through). -/
structure Request where
  method : Method
  url : String
  body : Body
  stream : Bool

/-- The observable parts of a `requests.Response` used by the client:
`status_code`, the parsed JSON body (`.json()`), and the lines produced by
`.iter_lines()` for streamed bodies (which may include empty lines). -/
structure Response where
  status_code : Nat
  jsonBody : PyVal
  lines : List String

/-- The network: maps a request to a response, or raises a transport
exception (connection refused, timeout, ...). -/
abbrev Transport := Request → Except PyExn Response

/-- The client state: `self.base_url` and `self.api_url`, set in
`Ollama.__init__`. -/
structure Ollama where
  base_url : String
  api_url : String

/-- `Ollama.__init__`: stores the base URL and derives
`api_url = f"\x7bbase_url\x7d/api"`. -/
def Ollama.init (base_url : String := "http://localhost:11434") : Ollama :=
  { base_url := base_url, api_url := base_url ++ "/api" }

/-- Outcome of one client method call: the client state when the call
returns, the requests issued to the transport during the call (in order),
and the returned value or the Python exception that propagated out. -/
structure OpOutcome (α : Type) where
  state : Ollama
  trace : List Request
  result : Except PyExn α

/-- Field lookup in a request's JSON body (used to speak about one payload
field, e.g. `options`, without spelling the whole payload). -/
def Request.jsonField (req : Request) (key : String) : Option PyVal :=
  match req.body with
  | Body.json data => data.lookup key
  | _ => Option.none

/-- `Ollama._post_request`: POST to `f"\x7bself.api_url\x7d/\x7bendpoint\x7d"` with a JSON
body, returning `(response.status_code, response)`; transport exceptions
propagate. -/
def _post_request (c : Ollama) (t : Transport) (endpoint : String) (data : Payload) :
    OpOutcome (Nat × Response) :=
  let url := c.api_url ++ "/" ++ endpoint
  let req : Request := ⟨Method.POST, url, Body.json data, false⟩
  ⟨c, [req], (t req).map (fun r => (r.status_code, r))⟩

/-- `Ollama._get_request`: GET to `f"\x7bself.api_url\x7d/\x7bendpoint\x7d"`, returning
`(response.status_code, response)`; transport exceptions propagate. -/
def _get_request (c : Ollama) (t : Transport) (endpoint : String) :
    OpOutcome (Nat × Response) :=
  let url := c.api_url ++ "/" ++ endpoint
  let req : Request := ⟨Method.GET, url, Body.empty, false⟩
  ⟨c, [req], (t req).map (fun r => (r.status_code, r))⟩

/-- `Ollama._delete_request`: DELETE to `f"\x7bself.api_url\x7d/\x7bendpoint\x7d"` with a
JSON body, returning `(response.status_code, response)`; transport
exceptions propagate. -/
def _delete_request (c : Ollama) (t : Transport) (endpoint : String) (data : Payload) :
    OpOutcome (Nat × Response) :=
  let url := c.api_url ++ "/" ++ endpoint
  let req : Request := ⟨Method.DELETE, url, Body.json data, false⟩
  ⟨c, [req], (t req).map (fun r => (r.status_code, r))⟩

/-- `Ollama._head_request`: HEAD to `f"\x7bself.api_url\x7d/\x7bendpoint\x7d"`, returning
`response.status_code == 200`; transport exceptions propagate (there is no
try/except here). -/
def _head_request (c : Ollama) (t : Transport) (endpoint : String) :
    OpOutcome Bool :=
  let url := c.api_url ++ "/" ++ endpoint
  let req : Request := ⟨Method.HEAD, url, Body.empty, false⟩
  ⟨c, [req], (t req).map (fun r => decide (r.status_code = 200))⟩

/-- The `allowed_options` list of `generate_completion`, verbatim. -/
def allowed_options : List String :=
  ["num_keep", "seed", "num_predict", "top_k", "top_p", "tfs_z", "typical_p",
   "repeat_last_n", "temperature", "repeat_penalty", "presence_penalty",
   "frequency_penalty", "mirostat", "mirostat_tau", "mirostat_eta",
   "penalize_newline", "stop", "numa", "num_ctx", "num_batch", "num_gqa",
   "num_gpu", "main_gpu", "low_vram", "f16_kv", "logits_all", "vocab_only",
   "use_mmap", "use_mlock", "embedding_only", "rope_frequency_base",
   "rope_frequency_scale", "num_thread"]

/-- The dict comprehension of `generate_completion`:
`\x7bkey: options[key] for key in options if key in allowed_options\x7d`.
Python dicts iterate keys in insertion order, so on the association-list
model this is a filter that keeps order and values. -/
def validated_options (options : Payload) : Payload :=
  options.filter (fun kv => allowed_options.contains kv.1)

/-- `Ollama.generate_completion`: filters `options` through
`allowed_options`, builds the payload in source order, POSTs to
`generate`. `options = options or \x7b\x7d` is modelled by `Option.getD ... []`
(`None` and the falsy empty dict both become the empty dict). -/
def generate_completion (c : Ollama) (t : Transport) (model prompt : String)
    (format : String := "json") (options : Option Payload := Option.none)
    (system : PyVal := PyVal.none) (template : PyVal := PyVal.none)
    (context : PyVal := PyVal.none) (stream : Bool := false)
    (raw : Bool := false) : OpOutcome (Nat × Response) :=
  let options := options.getD []
  let parameters : Payload :=
    [("model", PyVal.str model),
     ("prompt", PyVal.str prompt),
     ("format", PyVal.str format),
     ("options", PyVal.dict (validated_options options)),
     ("system", system),
     ("template", template),
     ("context", context),
     ("stream", PyVal.bool stream),
     ("raw", PyVal.bool raw)]
  _post_request c t "generate" parameters

/-- `Ollama.generate_chat_completion`: no option filtering at all; the
`options` dict goes into the payload unchanged. POSTs to `chat`. -/
def generate_chat_completion (c : Ollama) (t : Transport) (model : String)
    (messages : PyVal) (format : String := "json")
    (options : Option Payload := Option.none) (template : PyVal := PyVal.none)
    (stream : Bool := true) : OpOutcome (Nat × Response) :=
  let options := options.getD []
  let parameters : Payload :=
    [("model", PyVal.str model),
     ("messages", messages),
     ("format", PyVal.str format),
     ("options", PyVal.dict options),
     ("template", template),
     ("stream", PyVal.bool stream)]
  _post_request c t "chat" parameters

/-- `Ollama.create_model`: POSTs the model-definition payload to `create`. -/
def create_model (c : Ollama) (t : Transport) (name : String)
    (modelfile : PyVal := PyVal.none) (stream : Bool := false)
    (path : PyVal := PyVal.none) : OpOutcome (Nat × Response) :=
  let parameters : Payload :=
    [("name", PyVal.str name),
     ("modelfile", modelfile),
     ("stream", PyVal.bool stream),
     ("path", path)]
  _post_request c t "create" parameters

/-- `Ollama.blob_exists`: HEAD to `blobs/\x7bdigest\x7d` via `_head_request`. -/
def blob_exists (c : Ollama) (t : Transport) (digest : String) : OpOutcome Bool :=
  _head_request c t ("blobs/" ++ digest)

/-- `Ollama.create_blob`: raises `FileNotFoundError` before any network call
when the local file is missing (`fs` models `os.path.exists`); otherwise
POSTs the file as multipart to the BARE string `f"blobs/\x7bdigest\x7d"` (not
prefixed with `api_url`), returning the status code; any exception during
the upload is caught and mapped to `500`. -/
def create_blob (c : Ollama) (t : Transport) (fs : String → Bool)
    (digest file_path : String) : OpOutcome Nat :=
  let endpoint := "blobs/" ++ digest
  if fs file_path = false then
    ⟨c, [], Except.error (PyExn.fileNotFound ("File not found: " ++ file_path))⟩
  else
    let req : Request := ⟨Method.POST, endpoint, Body.multipart file_path, false⟩
    ⟨c, [req],
      match t req with
      | Except.ok r => Except.ok r.status_code
      | Except.error _ => Except.ok 500⟩

/-- `Ollama.list_local_models`: GET `tags`. -/
def list_local_models (c : Ollama) (t : Transport) : OpOutcome (Nat × Response) :=
  _get_request c t "tags"

/-- `Ollama.show_model_info`: POST `show` with `\x7b"name": name\x7d`. -/
def show_model_info (c : Ollama) (t : Transport) (name : String) :
    OpOutcome (Nat × Response) :=
  _post_request c t "show" [("name", PyVal.str name)]

/-- `Ollama.copy_model`: POST `copy` with source and destination. -/
def copy_model (c : Ollama) (t : Transport) (source destination : String) :
    OpOutcome (Nat × Response) :=
  _post_request c t "copy" [("source", PyVal.str source),
                            ("destination", PyVal.str destination)]

/-- `Ollama.delete_model`: DELETE `delete` with `\x7b"name": name\x7d`. -/
def delete_model (c : Ollama) (t : Transport) (name : String) :
    OpOutcome (Nat × Response) :=
  _delete_request c t "delete" [("name", PyVal.str name)]

/-- What a caller observes from a call to `pull_model`/`push_model`.  Because
both Python bodies contain `yield`, every call returns a generator object;
`gen ys` records the items obtained by exhausting it.  `pair` is the shape
the docstring promises for `stream=False` — a `(status_code, response.json())`
tuple — which the code can never actually hand to the caller: the `return`
statement inside a generator only sets the `StopIteration` value. -/
inductive PullResult where
  | gen (yielded : List String)
  | pair (status : Nat) (jsonBody : PyVal)

/-- `Ollama.pull_model`: POSTs to `pull` with `stream` threaded into the
transport call.  The body contains `yield`, so the call returns a generator:
iterating it with `stream=True` yields exactly the non-empty lines of
`response.iter_lines()` in order (`if line:` drops falsy empty lines); with
`stream=False` the body executes `return (status_code, json)`, which ends
iteration with that tuple hidden in `StopIteration` — the caller's iteration
observes no items, hence `PullResult.gen []`.  An exception raised while the
generator runs propagates to the iterating caller. -/
def pull_model (c : Ollama) (t : Transport) (name : String)
    (insecure : Bool := false) (stream : Bool := true) : OpOutcome PullResult :=
  let parameters : Payload :=
    [("name", PyVal.str name),
     ("insecure", PyVal.bool insecure),
     ("stream", PyVal.bool stream)]
  let req : Request := ⟨Method.POST, c.api_url ++ "/" ++ "pull",
                        Body.json parameters, stream⟩
  ⟨c, [req],
    (t req).map (fun r =>
      if stream then
        PullResult.gen (r.lines.filter (fun l => l != ""))
      else
        PullResult.gen [])⟩

/-- `Ollama.push_model`: identical to `pull_model` except for the `push`
endpoint (and the same generator-function pitfall). -/
def push_model (c : Ollama) (t : Transport) (name : String)
    (insecure : Bool := false) (stream : Bool := true) : OpOutcome PullResult :=
  let parameters : Payload :=
    [("name", PyVal.str name),
     ("insecure", PyVal.bool insecure),
     ("stream", PyVal.bool stream)]
  let req : Request := ⟨Method.POST, c.api_url ++ "/" ++ "push",
                        Body.json parameters, stream⟩
  ⟨c, [req],
    (t req).map (fun r =>
      if stream then
        PullResult.gen (r.lines.filter (fun l => l != ""))
      else
        PullResult.gen [])⟩

/-- The (empty) `allowed_options` list of `generate_embeddings`, verbatim. -/
def embeddings_allowed_options : List String := []

/-- The dict comprehension of `generate_embeddings` over its empty
`allowed_options`. -/
def embeddings_validated_options (additional_options : Payload) : Payload :=
  additional_options.filter (fun kv => embeddings_allowed_options.contains kv.1)

/-- `Ollama.generate_embeddings`: filters `additional_options` against an
empty whitelist and POSTs to `embeddings`. -/
def generate_embeddings (c : Ollama) (t : Transport) (model prompt : String)
    (additional_options : Option Payload := Option.none) :
    OpOutcome (Nat × Response) :=
  let additional_options := additional_options.getD []
  let parameters : Payload :=
    [("model", PyVal.str model),
     ("prompt", PyVal.str prompt),
     ("options", PyVal.dict (embeddings_validated_options additional_options))]
  _post_request c t "embeddings" parameters

/-- A server that answers every request with status 200, the JSON body
`\x7b"status": "success"\x7d` and one body line (used for concrete evaluations). -/
def jsonOkTransport : Transport := fun _ =>
  Except.ok { status_code := 200,
              jsonBody := PyVal.dict [("status", PyVal.str "success")],
              lines := ["status: success"] }

/-- A server whose streamed body contains an empty line between two
non-empty ones. -/
def streamLinesTransport : Transport := fun _ =>
  Except.ok { status_code := 200,
              jsonBody := PyVal.none,
              lines := ["status: pulling", "", "status: done"] }

/-- A transport that fails with a connection error on every request. -/
def connFailTransport : Transport := fun _ =>
  Except.error (PyExn.transport "ConnectionError")

/-- A transport that answers every request with status 404 and no body. -/
def head404Transport : Transport := fun _ =>
  Except.ok { status_code := 404, jsonBody := PyVal.none, lines := [] }

/-- A transport that raises midway through a blob upload. -/
def uploadFailTransport : Transport := fun _ =>
  Except.error (PyExn.transport "ChunkedEncodingError")

/-- A file system on which every path exists (models `os.path.exists`). -/
def alwaysExists : String → Bool := fun _ => true

/-- A file system on which no path exists. -/
def neverExists : String → Bool := fun _ => false

/-- Helper: the empty whitelist of `generate_embeddings` filters every
options dict down to the empty dict. -/
theorem embeddings_validated_options_eq_nil (additional_options : Payload) :
    embeddings_validated_options additional_options = [] := by
  induction additional_options with
  | nil => rfl
  | cons kv rest ih =>
      simp [embeddings_validated_options, embeddings_allowed_options,
            List.filter_cons]

/-- C1 (code bug): `pull_model` and `push_model` are generator functions, so
with `stream=False` the caller still gets a generator — here one that yields
nothing, because the `(status_code, response.json())` tuple only becomes the
`StopIteration` value — and never the promised `(status, parsed JSON)` pair.
With `stream=True` the generator does yield exactly the non-empty body
lines, in order. -/
theorem pull_push_nonstream_returns_empty_generator :
    (pull_model (Ollama.init "http://localhost:11434") jsonOkTransport
        "llama2" false false).result = Except.ok (PullResult.gen [])
    ∧ (push_model (Ollama.init "http://localhost:11434") jsonOkTransport
        "llama2" false false).result = Except.ok (PullResult.gen [])
    ∧ PullResult.gen ([] : List String)
        ≠ PullResult.pair 200 (PyVal.dict [("status", PyVal.str "success")])
    ∧ (pull_model (Ollama.init "http://localhost:11434") streamLinesTransport
        "llama2" false true).result
      = Except.ok (PullResult.gen ["status: pulling", "status: done"]) := by
  refine ⟨rfl, rfl, ?_, rfl⟩
  intro h
  exact PullResult.noConfusion h

/-- C2 counterexample: on a connection failure `blob_exists` propagates the
transport exception — it does not return `false`, contrary to the claim
that it never raises on connection failure. -/
theorem blob_exists_conn_failure_raises :
    (blob_exists (Ollama.init "http://localhost:11434") connFailTransport
        "sha256-abc").result = Except.error (PyExn.transport "ConnectionError")
    ∧ (blob_exists (Ollama.init "http://localhost:11434") connFailTransport
        "sha256-abc").result ≠ Except.ok false := by
  refine ⟨rfl, fun h => nomatch h⟩

/-- C2 amended: `blob_exists` returns `true` iff the HEAD request yields
status exactly 200, and `false` for every other status (404, 500, ...); a
connection failure, however, propagates as an exception instead of
returning `false`. -/
theorem blob_exists_status_characterization (c : Ollama) (t : Transport)
    (digest : String) :
    (∀ r, t ⟨Method.HEAD, c.api_url ++ "/" ++ ("blobs/" ++ digest),
          Body.empty, false⟩ = Except.ok r →
        (blob_exists c t digest).result
          = Except.ok (decide (r.status_code = 200)))
    ∧ (∀ e, t ⟨Method.HEAD, c.api_url ++ "/" ++ ("blobs/" ++ digest),
          Body.empty, false⟩ = Except.error e →
        (blob_exists c t digest).result = Except.error e) := by
  constructor
  · intro r h
    show (t ⟨Method.HEAD, c.api_url ++ "/" ++ ("blobs/" ++ digest),
        Body.empty, false⟩).map (fun r => decide (r.status_code = 200))
      = Except.ok (decide (r.status_code = 200))
    rw [h]
    rfl
  · intro e h
    show (t ⟨Method.HEAD, c.api_url ++ "/" ++ ("blobs/" ++ digest),
        Body.empty, false⟩).map (fun r => decide (r.status_code = 200))
      = Except.error e
    rw [h]
    rfl

/-- Witness for the amended C2: against a server answering 404, the check
returns `false`. -/
theorem blob_exists_status_characterization_witness :
    (blob_exists (Ollama.init "http://localhost:11434") head404Transport
        "sha256-abc").result = Except.ok false :=
  (blob_exists_status_characterization (Ollama.init "http://localhost:11434")
      head404Transport "sha256-abc").1
    { status_code := 404, jsonBody := PyVal.none, lines := [] } rfl

/-- C4: the completion payload's `options` field is the input filtered by
the fixed allow-list — exactly the allow-listed keys, with their values
unchanged, and nothing else; on
`\x7b"temperature": 0.5, "bogus": 1\x7d` it is exactly
`\x7b"temperature": 0.5\x7d`. -/
theorem generate_completion_options_filtered (c : Ollama) (t : Transport)
    (model prompt format : String) (options : Payload)
    (system template context : PyVal) (stream raw : Bool) :
    ((generate_completion c t model prompt format (some options) system
        template context stream raw).trace
      = [⟨Method.POST, c.api_url ++ "/" ++ "generate",
          Body.json
            [("model", PyVal.str model),
             ("prompt", PyVal.str prompt),
             ("format", PyVal.str format),
             ("options", PyVal.dict (validated_options options)),
             ("system", system),
             ("template", template),
             ("context", context),
             ("stream", PyVal.bool stream),
             ("raw", PyVal.bool raw)], false⟩])
    ∧ (∀ k v, (k, v) ∈ validated_options options ↔
        (k, v) ∈ options ∧ k ∈ allowed_options)
    ∧ validated_options
        [("temperature", PyVal.float (1 / 2)), ("bogus", PyVal.int 1)]
      = [("temperature", PyVal.float (1 / 2))] := by
  refine ⟨rfl, ?_, ?_⟩
  · intro k v
    simp [validated_options, List.mem_filter]
  · rfl

/-- C5: whatever `additional_options` is given, the embeddings payload's
`options` field is the empty dict. -/
theorem generate_embeddings_options_always_empty (c : Ollama) (t : Transport)
    (model prompt : String) (additional_options : Payload) :
    (generate_embeddings c t model prompt (some additional_options)).trace
      = [⟨Method.POST, c.api_url ++ "/" ++ "embeddings",
          Body.json
            [("model", PyVal.str model),
             ("prompt", PyVal.str prompt),
             ("options", PyVal.dict [])], false⟩] := by
  have h : (generate_embeddings c t model prompt (some additional_options)).trace
      = [⟨Method.POST, c.api_url ++ "/" ++ "embeddings",
          Body.json
            [("model", PyVal.str model),
             ("prompt", PyVal.str prompt),
             ("options", PyVal.dict
               (embeddings_validated_options additional_options))], false⟩] := rfl
  rw [h, embeddings_validated_options_eq_nil]

/-- C3: every operation targets `\x7bbase\x7d/api/\x7bendpoint\x7d` built from the
configured base address, except `create_blob`, whose request (issued only
when the local file exists) targets the bare string `blobs/\x7bdigest\x7d` with
no base-address prefix. -/
theorem request_urls_use_api_base (b : String) (t : Transport)
    (fs : String → Bool)
    (model prompt format name source destination digest file_path : String)
    (options : Option Payload)
    (messages system template context modelfile path : PyVal)
    (stream raw insecure : Bool) :
    (Ollama.init b).api_url = b ++ "/api"
    ∧ ((generate_completion (Ollama.init b) t model prompt format options
          system template context stream raw).trace.map Request.url
        = [b ++ "/api" ++ "/" ++ "generate"])
    ∧ ((generate_chat_completion (Ollama.init b) t model messages format
          options template stream).trace.map Request.url
        = [b ++ "/api" ++ "/" ++ "chat"])
    ∧ ((create_model (Ollama.init b) t name modelfile stream path).trace.map
          Request.url
        = [b ++ "/api" ++ "/" ++ "create"])
    ∧ ((blob_exists (Ollama.init b) t digest).trace.map Request.url
        = [b ++ "/api" ++ "/" ++ ("blobs/" ++ digest)])
    ∧ ((list_local_models (Ollama.init b) t).trace.map Request.url
        = [b ++ "/api" ++ "/" ++ "tags"])
    ∧ ((show_model_info (Ollama.init b) t name).trace.map Request.url
        = [b ++ "/api" ++ "/" ++ "show"])
    ∧ ((copy_model (Ollama.init b) t source destination).trace.map Request.url
        = [b ++ "/api" ++ "/" ++ "copy"])
    ∧ ((delete_model (Ollama.init b) t name).trace.map Request.url
        = [b ++ "/api" ++ "/" ++ "delete"])
    ∧ ((pull_model (Ollama.init b) t name insecure stream).trace.map Request.url
        = [b ++ "/api" ++ "/" ++ "pull"])
    ∧ ((push_model (Ollama.init b) t name insecure stream).trace.map Request.url
        = [b ++ "/api" ++ "/" ++ "push"])
    ∧ ((generate_embeddings (Ollama.init b) t model prompt options).trace.map
          Request.url
        = [b ++ "/api" ++ "/" ++ "embeddings"])
    ∧ ((create_blob (Ollama.init b) t fs digest file_path).trace.map Request.url
        = if fs file_path then ["blobs/" ++ digest] else []) := by
  refine ⟨rfl, rfl, rfl, rfl, rfl, rfl, rfl, rfl, rfl, rfl, rfl, rfl, ?_⟩
  cases h : fs file_path <;> simp [create_blob, h]

/-- C6: when the local file exists but the transport raises during the
upload, `create_blob` swallows the exception and returns status 500. -/
theorem create_blob_exception_maps_to_500 (c : Ollama) (t : Transport)
    (fs : String → Bool) (digest file_path : String) (e : PyExn)
    (hfs : fs file_path = true)
    (ht : t ⟨Method.POST, "blobs/" ++ digest, Body.multipart file_path, false⟩
        = Except.error e) :
    (create_blob c t fs digest file_path).result = Except.ok 500 := by
  simp [create_blob, hfs, ht]

/-- Witness for C6: a concrete upload whose transport raises a chunked
encoding error ends with status 500, not an exception. -/
theorem create_blob_exception_maps_to_500_witness :
    (create_blob (Ollama.init "http://localhost:11434") uploadFailTransport
        alwaysExists "sha256-abc" "model.bin").result = Except.ok 500 :=
  create_blob_exception_maps_to_500 (Ollama.init "http://localhost:11434")
    uploadFailTransport alwaysExists "sha256-abc" "model.bin"
    (PyExn.transport "ChunkedEncodingError") rfl rfl

/-- C7: when the local file does not exist, `create_blob` raises
`FileNotFoundError` and issues no request at all. -/
theorem create_blob_missing_file_raises_without_request (c : Ollama)
    (t : Transport) (fs : String → Bool) (digest file_path : String)
    (hfs : fs file_path = false) :
    (create_blob c t fs digest file_path).result
        = Except.error (PyExn.fileNotFound ("File not found: " ++ file_path))
    ∧ (create_blob c t fs digest file_path).trace = [] := by
  constructor <;> simp [create_blob, hfs]

/-- Witness for C7: a concrete missing path raises and leaves an empty
request trace. -/
theorem create_blob_missing_file_witness :
    (create_blob (Ollama.init "http://localhost:11434") jsonOkTransport
        neverExists "sha256-abc" "missing.bin").result
        = Except.error (PyExn.fileNotFound ("File not found: " ++ "missing.bin"))
    ∧ (create_blob (Ollama.init "http://localhost:11434") jsonOkTransport
        neverExists "sha256-abc" "missing.bin").trace = [] :=
  create_blob_missing_file_raises_without_request
    (Ollama.init "http://localhost:11434") jsonOkTransport neverExists
    "sha256-abc" "missing.bin" rfl

/-- C8: chat completion puts the given `options` dict into the payload
unchanged (no allow-list filtering), issues exactly one POST, and returns
the `(status_code, response)` pair. -/
theorem generate_chat_completion_options_unfiltered (c : Ollama)
    (t : Transport) (model : String) (messages : PyVal) (format : String)
    (options : Payload) (template : PyVal) (stream : Bool) (r : Response)
    (ht : t ⟨Method.POST, c.api_url ++ "/" ++ "chat",
        Body.json
          [("model", PyVal.str model),
           ("messages", messages),
           ("format", PyVal.str format),
           ("options", PyVal.dict options),
           ("template", template),
           ("stream", PyVal.bool stream)], false⟩ = Except.ok r) :
    (generate_chat_completion c t model messages format (some options)
        template stream).trace
      = [⟨Method.POST, c.api_url ++ "/" ++ "chat",
          Body.json
            [("model", PyVal.str model),
             ("messages", messages),
             ("format", PyVal.str format),
             ("options", PyVal.dict options),
             ("template", template),
             ("stream", PyVal.bool stream)], false⟩]
    ∧ (generate_chat_completion c t model messages format (some options)
        template stream).result = Except.ok (r.status_code, r) := by
  refine ⟨rfl, ?_⟩
  show (t ⟨Method.POST, c.api_url ++ "/" ++ "chat",
      Body.json
        [("model", PyVal.str model),
         ("messages", messages),
         ("format", PyVal.str format),
         ("options", PyVal.dict options),
         ("template", template),
         ("stream", PyVal.bool stream)], false⟩).map
      (fun r => (r.status_code, r)) = Except.ok (r.status_code, r)
  rw [ht]
  rfl

/-- Witness for C8: a concrete chat call against the 200-answering server
returns the pair of status and response, with the unfiltered option kept. -/
theorem generate_chat_completion_options_unfiltered_witness :
    (generate_chat_completion (Ollama.init "http://localhost:11434")
        jsonOkTransport "llama2" (PyVal.list [])
        "json" (some [("bogus", PyVal.int 1)]) PyVal.none true).result
      = Except.ok (200,
          { status_code := 200,
            jsonBody := PyVal.dict [("status", PyVal.str "success")],
            lines := ["status: success"] }) :=
  (generate_chat_completion_options_unfiltered
      (Ollama.init "http://localhost:11434") jsonOkTransport "llama2"
      (PyVal.list []) "json" [("bogus", PyVal.int 1)] PyVal.none true
      { status_code := 200,
        jsonBody := PyVal.dict [("status", PyVal.str "success")],
        lines := ["status: success"] } rfl).2

/-- C9: no method assigns to the client object; the state when any call
returns equals the state at entry, so `base_url` and `api_url` keep their
construction-time values across every operation. -/
theorem client_state_immutable (c : Ollama) (t : Transport)
    (fs : String → Bool)
    (model prompt format name source destination digest file_path : String)
    (options : Option Payload)
    (messages system template context modelfile path : PyVal)
    (stream raw insecure : Bool) :
    (generate_completion c t model prompt format options system template
        context stream raw).state = c
    ∧ (generate_chat_completion c t model messages format options template
        stream).state = c
    ∧ (create_model c t name modelfile stream path).state = c
    ∧ (blob_exists c t digest).state = c
    ∧ (create_blob c t fs digest file_path).state = c
    ∧ (list_local_models c t).state = c
    ∧ (show_model_info c t name).state = c
    ∧ (copy_model c t source destination).state = c
    ∧ (delete_model c t name).state = c
    ∧ (pull_model c t name insecure stream).state = c
    ∧ (push_model c t name insecure stream).state = c
    ∧ (generate_embeddings c t model prompt options).state = c := by
  refine ⟨rfl, rfl, rfl, rfl, ?_, rfl, rfl, rfl, rfl, rfl, rfl, rfl⟩
  cases h : fs file_path <;> simp [create_blob, h]

/-- C10: passing `None` for the options argument is the same call as
passing an empty dict, and either way the payload's `options` field is the
empty dict, for all three generation methods. -/
theorem none_options_equal_empty_dict (c : Ollama) (t : Transport)
    (model prompt format : String) (messages system template context : PyVal)
    (stream raw : Bool) :
    (generate_completion c t model prompt format Option.none system template
        context stream raw
      = generate_completion c t model prompt format (some []) system template
        context stream raw)
    ∧ ((generate_completion c t model prompt format Option.none system
        template context stream raw).trace.map
          (fun req => req.jsonField "options")
      = [some (PyVal.dict [])])
    ∧ (generate_chat_completion c t model messages format Option.none
        template stream
      = generate_chat_completion c t model messages format (some [])
        template stream)
    ∧ ((generate_chat_completion c t model messages format Option.none
        template stream).trace.map (fun req => req.jsonField "options")
      = [some (PyVal.dict [])])
    ∧ (generate_embeddings c t model prompt Option.none
      = generate_embeddings c t model prompt (some []))
    ∧ ((generate_embeddings c t model prompt Option.none).trace.map
          (fun req => req.jsonField "options")
      = [some (PyVal.dict [])]) :=
  ⟨rfl, rfl, rfl, rfl, rfl, rfl⟩

end OllamaPy
